import Mathlib

set_option maxRecDepth 100000

/-!
Shallow embedding of the simple-secrets server core
(`src/server/src/main.rs`, with `src/src/main.rs` an earlier near-identical
copy of the same handlers). External collaborators (the etcd store, the
argonautica hashing primitive, the thread RNG) are modelled as an explicit
environment; every handler returns its HTTP response together with the
resulting store state and a trace of its observable effects (store reads and
writes, audit emissions, counter increments, verification calls).
-/

namespace SimpleSecrets

/-! ### Secret identifier derivation: SHA-1 and name-based (version 5) UUID

The source derives a secret's storage identifier with
`uuid::Uuid::new_v5(&uuid::Uuid::NAMESPACE_DNS, name.as_bytes())`, i.e. the
RFC 4122 name-based UUID: SHA-1 of the DNS namespace bytes followed by the
UTF-8 bytes of the name, truncated to 16 bytes with version/variant bits
forced, rendered as lowercase hyphenated hex. We implement that construction
directly on lists of byte values (`Nat`, reduced mod 2^8 / 2^32 where the
machine-width arithmetic matters). -/

/-- Truncate to a 32-bit machine word. -/
def w32 (n : Nat) : Nat := n % 4294967296

/-- 32-bit left rotation. -/
def rotl (n b : Nat) : Nat := w32 ((n <<< b) ||| (n >>> (32 - b)))

/-- UTF-8 encoding of one character, as byte values. -/
def utf8Bytes (c : Char) : List Nat :=
  let n := c.toNat
  if n < 128 then [n]
  else if n < 2048 then [192 ||| (n >>> 6), 128 ||| (n &&& 63)]
  else if n < 65536 then
    [224 ||| (n >>> 12), 128 ||| ((n >>> 6) &&& 63), 128 ||| (n &&& 63)]
  else
    [240 ||| (n >>> 18), 128 ||| ((n >>> 12) &&& 63),
     128 ||| ((n >>> 6) &&& 63), 128 ||| (n &&& 63)]

/-- UTF-8 bytes of a string (`name.as_bytes()` in the source). -/
def strBytes (s : String) : List Nat := s.toList.flatMap utf8Bytes

/-- SHA-1 message padding: append 0x80, zero-pad to 56 mod 64, then the
big-endian 64-bit bit length. -/
def sha1Pad (msg : List Nat) : List Nat :=
  let L := msg.length
  let k := (119 - L % 64) % 64
  msg ++ [128] ++ List.replicate k 0 ++
    ([56, 48, 40, 32, 24, 16, 8, 0].map fun s => ((8 * L) >>> s) % 256)

/-- Split a byte list into 64-byte chunks (structural recursion on a fuel
bound so the definition reduces in the kernel). -/
def toChunksAux : Nat → List Nat → List (List Nat)
  | 0, _ => []
  | _, [] => []
  | n + 1, x :: xs => ((x :: xs).take 64) :: toChunksAux n ((x :: xs).drop 64)

/-- Split a byte list into 64-byte chunks. -/
def toChunks (l : List Nat) : List (List Nat) := toChunksAux l.length l

/-- Pack bytes into big-endian 32-bit words. -/
def bytesToWords : List Nat → List Nat
  | a :: b :: c :: d :: rest =>
    (((a * 256 + b) * 256 + c) * 256 + d) :: bytesToWords rest
  | _ => []

/-- Extend 16 message words to the 80 words of the SHA-1 schedule. -/
def extendWords (ws : List Nat) : List Nat :=
  (List.range 64).foldl
    (fun ws i =>
      let j := i + 16
      ws ++ [rotl (ws.getD (j - 3) 0 ^^^ ws.getD (j - 8) 0 ^^^
                   ws.getD (j - 14) 0 ^^^ ws.getD (j - 16) 0) 1])
    ws

/-- The 80 SHA-1 rounds on one chunk. -/
def sha1Rounds (ws : List Nat) (h : Nat × Nat × Nat × Nat × Nat) :
    Nat × Nat × Nat × Nat × Nat :=
  (List.range 80).foldl
    (fun acc i =>
      let (a, b, c, d, e) := acc
      let fk :=
        if i < 20 then ((b &&& c) ||| ((4294967295 ^^^ b) &&& d), 1518500249)
        else if i < 40 then (b ^^^ c ^^^ d, 1859775393)
        else if i < 60 then ((b &&& c) ||| (b &&& d) ||| (c &&& d), 2400959708)
        else (b ^^^ c ^^^ d, 3395469782)
      let temp := w32 (rotl a 5 + fk.1 + e + fk.2 + ws.getD i 0)
      (temp, a, rotl b 30, c, d))
    h

/-- SHA-1 digest of a byte list, as 20 byte values. -/
def sha1 (msg : List Nat) : List Nat :=
  let final :=
    (toChunks (sha1Pad msg)).foldl
      (fun h chunk =>
        let (h0, h1, h2, h3, h4) := h
        let (a, b, c, d, e) := sha1Rounds (extendWords (bytesToWords chunk)) h
        (w32 (h0 + a), w32 (h1 + b), w32 (h2 + c), w32 (h3 + d), w32 (h4 + e)))
      (1732584193, 4023233417, 2562383102, 271733878, 3285377520)
  let (h0, h1, h2, h3, h4) := final
  [h0, h1, h2, h3, h4].flatMap fun w =>
    [(w >>> 24) % 256, (w >>> 16) % 256, (w >>> 8) % 256, w % 256]

/-- The 16 bytes of `uuid::Uuid::NAMESPACE_DNS`. -/
def NAMESPACE_DNS_BYTES : List Nat :=
  [107, 167, 184, 16, 157, 173, 17, 209, 128, 180, 0, 192, 79, 212, 48, 200]

/-- Lowercase hex digit. -/
def hexDigit (n : Nat) : Char := "0123456789abcdef".toList.getD n '0'

/-- Two-digit lowercase hex of a byte. -/
def byteHex (b : Nat) : String := String.mk [hexDigit (b / 16 % 16), hexDigit (b % 16)]

/-- `uuid::Uuid::new_v5(&uuid::Uuid::NAMESPACE_DNS, name.as_bytes())`, rendered
the way Rust's `format!` displays it: lowercase hyphenated hex. -/
def uuid_v5_dns (name : String) : String :=
  let d := (sha1 (NAMESPACE_DNS_BYTES ++ strBytes name)).take 16
  let d := d.set 6 ((d.getD 6 0 &&& 15) ||| 80)
  let d := d.set 8 ((d.getD 8 0 &&& 63) ||| 128)
  String.join ((d.take 4).map byteHex) ++ "-" ++
  String.join (((d.drop 4).take 2).map byteHex) ++ "-" ++
  String.join (((d.drop 6).take 2).map byteHex) ++ "-" ++
  String.join (((d.drop 8).take 2).map byteHex) ++ "-" ++
  String.join ((d.drop 10).map byteHex)

/-! ### String helpers

Rust's `str::replace` substitutes every non-overlapping occurrence of the
pattern, scanning left to right. We implement that on character lists by
structural recursion (with the list length as fuel so the definition reduces
in the kernel); the source only ever calls it with the nonempty pattern
"token=". -/

/-- Whether `pat` is a prefix of `l`. -/
def startsWithList : List Char → List Char → Bool
  | [], _ => true
  | _ :: _, [] => false
  | p :: ps, c :: cs => p == c && startsWithList ps cs

/-- Replace every non-overlapping occurrence of `pat` (nonempty) in `l` by
`rep`, scanning left to right; `fuel` bounds the recursion. -/
def replaceAux (pat rep : List Char) : Nat → List Char → List Char
  | 0, l => l
  | fuel + 1, l =>
    match l with
    | [] => []
    | a :: as =>
      if startsWithList pat l then
        match pat with
        | [] => a :: replaceAux pat rep fuel as
        | _ :: _ => rep ++ replaceAux pat rep fuel (l.drop pat.length)
      else a :: replaceAux pat rep fuel as

/-- `s.replace(pat, rep)` from Rust, for nonempty patterns. -/
def str_replace (s pat rep : String) : String :=
  String.mk (replaceAux pat.toList rep.toList s.toList.length s.toList)

/-! ### Responses, events, counters, effects, store, environment -/

/-- HTTP response as the handlers build it: status code plus body
(`Response::with(status)` alone has an empty body). -/
structure Response where
  status : Nat
  body : String
deriving DecidableEq, Repr

/-- The `ServerEvents` enumeration of audit event kinds from the source. -/
inductive ServerEvents where
  | Start
  | LoginFailureInvalidPassword
  | LoginFailureTokenCreationFailure
  | TokenCreated
  | LoginSuccess
  | SecretCreateFailure
  | SecretCreateFailureNoToken
  | SecretCreateFailureInvalidToken
  | SecretCreateSuccess
  | SecretFetchFailureNoToken
  | SecretFetchFailureInvalidToken
  | SecretFetchFailureNoExist
  | SecretFetchSuccess
deriving DecidableEq, Repr

/-- The prometheus counters registered by the server. -/
inductive CounterName where
  | successful_login
  | unsuccessful_login
  | secrets_fetch
  | secrets_fetch_access_denied
  | secrets_set
  | secrets_set_access_denied
deriving DecidableEq, Repr

/-- Observable effects of a handler run, in program order: attempted store
reads/writes, audit emissions (`audit_event`), counter increments
(`Counter::inc`) and password-verification calls. -/
inductive Effect where
  | storeGet (key : String)
  | storeSet (key : String) (value : String) (ttl : Option Nat)
  | audit (event : ServerEvents) (content : String)
  | incCounter (c : CounterName)
  | verifyCall (hash : String) (password : String)
deriving DecidableEq, Repr

/-- The etcd key space: an association list from key to the node's optional
value (etcd v2 nodes may exist without a value, e.g. directories, in which
case `response.data.node.value` is `None`). -/
abbrev Store := List (String × Option String)

/-- First-match association lookup, mirroring which node an etcd read sees. -/
def storeLookup : Store → String → Option (Option String)
  | [], _ => none
  | (k, v) :: rest, key => if k = key then some v else storeLookup rest key

/-- Environment supplying the external collaborators: which store calls fail
(covering network errors, client-creation errors and the etcd key-not-found
error, all of which surface as a failed call in the source), the argonautica
verification primitive `verify(hash, password)` (`Err` on any primitive
error, `Ok b` otherwise), the raw draws of the thread RNG feeding the
`Alphanumeric` distribution, and the configured token TTL. -/
structure Env where
  getFails : String → Bool
  setFails : String → Bool
  argonVerify : String → String → Except Unit Bool
  rngIndex : Nat → Nat
  tokenExpirationSecs : Nat

/-- The `UserInfo` struct from the source (its `Default` is all-empty). -/
structure UserInfo where
  username : String
  password : String
  encoded_password : String
  token : String
deriving DecidableEq, Repr

/-- Result of one handler run: the HTTP response, the store as left behind,
and the trace of observable effects in program order. -/
structure RunResult where
  response : Response
  store : Store
  trace : List Effect
deriving DecidableEq, Repr

/-! ### Store adapter functions (from the source) -/

/-- `get_etcd_key`: reads `key`; a failing call (network error or etcd
key-not-found error) yields `Err`; a successful response maps an absent node
value to the empty string (`value.unwrap_or_else(|| String::from(""))`). -/
def get_etcd_key (env : Env) (st : Store) (key : String) :
    Except String String × List Effect :=
  (if env.getFails key then Except.error ("Unable to fetch etcd key " ++ key)
   else
     match storeLookup st key with
     | none => Except.error ("Unable to fetch etcd key " ++ key)
     | some v => Except.ok (v.getD ""),
   [Effect.storeGet key])

/-- `set_etcd_key`: writes `value` at `key` with an optional TTL; on a failing
call the store is unchanged and `Err` is returned. -/
def set_etcd_key (env : Env) (st : Store) (key value : String)
    (expiration : Option Nat) : Except String Unit × Store × List Effect :=
  if env.setFails key then
    (Except.error ("Unable to update etcd key " ++ key), st,
     [Effect.storeSet key value expiration])
  else
    (Except.ok (), (key, some value) :: st, [Effect.storeSet key value expiration])

/-- `validate_token`: reads `/session_tokens/token`; a failing call
(including the etcd key-not-found error for an unissued or expired token)
yields `Err`; a successful response maps an absent node value to the empty
string (`username.unwrap_or_else(|| String::from(""))`). -/
def validate_token (env : Env) (st : Store) (token : String) :
    Except String String × List Effect :=
  (if env.getFails ("/session_tokens/" ++ token) then
     Except.error ("Token " ++ token ++ " not found")
   else
     match storeLookup st ("/session_tokens/" ++ token) with
     | none => Except.error ("Token " ++ token ++ " not found")
     | some v => Except.ok (v.getD ""),
   [Effect.storeGet ("/session_tokens/" ++ token)])

/-! ### Credential and token functions (from the source) -/

/-- `fetch_user_password`: overwrites `encoded_password` only when the store
read succeeds; on a failed read the field keeps its previous (default empty)
value. -/
def fetch_user_password (env : Env) (st : Store) (ui : UserInfo) :
    UserInfo × List Effect :=
  match get_etcd_key env st ("/users/" ++ ui.username ++ "/password") with
  | (Except.ok value, tr) => ({ ui with encoded_password := value }, tr)
  | (Except.error _, tr) => (ui, tr)

/-- `verify_password`: true exactly when the argonautica verifier returns
`Ok(true)` for `(encoded_password, password)`; any error gives false. -/
def verify_password (env : Env) (ui : UserInfo) : Bool × List Effect :=
  (match env.argonVerify ui.encoded_password ui.password with
   | Except.ok true => true
   | _ => false,
   [Effect.verifyCall ui.encoded_password ui.password])

/-- The 62-character set the rand crate's `Alphanumeric` distribution draws
from. -/
def GEN_ASCII_CHARSET : List Char :=
  "ABCDEFGHIJKLMNOPQRSTUVWXYZabcdefghijklmnopqrstuvwxyz0123456789".toList

/-- One `rng.sample(Alphanumeric)` draw: the i-th raw RNG value reduced
uniformly into the 62-symbol charset. -/
def sampleAlphanumeric (env : Env) (i : Nat) : Char :=
  GEN_ASCII_CHARSET.getD (env.rngIndex i % 62) 'A'

/-- `generate_authorization_token`: 24 successive `Alphanumeric` samples
collected into a string. -/
def generate_authorization_token (env : Env) : String :=
  String.mk ((List.range 24).map (sampleAlphanumeric env))

/-- `update_user_token`: persists `/session_tokens/token -> username` with
the configured TTL. -/
def update_user_token (env : Env) (st : Store) (ui : UserInfo) :
    Except String Unit × Store × List Effect :=
  set_etcd_key env st ("/session_tokens/" ++ ui.token) ui.username
    (some env.tokenExpirationSecs)

/-! ### Handlers (from the source)

The transport layer is factored out: `login` receives the parsed Basic
authorization header (`none` when the header is absent; the password part is
itself optional), and the secret handlers receive the router parameters
(`none` when `req.extensions.get::<Router>()` is `None`; each `find` result
optional) and the raw query string (`req.url.query()`). -/

/-- The `login` handler. -/
def login (env : Env) (st : Store) (auth : Option (String × Option String)) :
    RunResult :=
  match auth with
  | none => ⟨⟨401, ""⟩, st, []⟩
  | some (username, authPassword) =>
    match authPassword with
    | none => ⟨⟨401, ""⟩, st, []⟩
    | some password =>
      let fp := fetch_user_password env st
        { username := username, password := password,
          encoded_password := "", token := "" }
      let vp := verify_password env fp.1
      if vp.1 then
        let ui := { fp.1 with token := generate_authorization_token env }
        let ut := update_user_token env st ui
        match ut.1 with
        | Except.ok _ =>
          ⟨⟨200, ui.token⟩, ut.2.1,
           fp.2 ++ vp.2 ++ ut.2.2 ++
           [Effect.audit ServerEvents.TokenCreated
              ("Session token " ++ ui.token ++ " for user " ++ username ++
               " created"),
            Effect.audit ServerEvents.LoginSuccess
              ("Login success for user " ++ username),
            Effect.incCounter CounterName.successful_login]⟩
        | Except.error _ =>
          ⟨⟨500, ""⟩, ut.2.1,
           fp.2 ++ vp.2 ++ ut.2.2 ++
           [Effect.audit ServerEvents.LoginFailureTokenCreationFailure
              ("Login failure for user " ++ username ++
               " due to token creation failure")]⟩
      else
        ⟨⟨401, ""⟩, st,
         fp.2 ++ vp.2 ++
         [Effect.audit ServerEvents.LoginFailureInvalidPassword
            ("Login failure for user " ++ username ++
             " due to invalid password"),
          Effect.incCounter CounterName.unsuccessful_login]⟩

/-- The `set_secret` handler. -/
def set_secret (env : Env) (st : Store)
    (params : Option (Option String × Option String)) (query : Option String) :
    RunResult :=
  match params with
  | none => ⟨⟨400, ""⟩, st, []⟩
  | some (pname, pvalue) =>
    let name := pname.getD ""
    let value := pvalue.getD ""
    match query with
    | none =>
      ⟨⟨400, "Token required"⟩, st,
       [Effect.audit ServerEvents.SecretCreateFailureNoToken
          ("Secret " ++ name ++ " failed set, no token entered attempt"),
        Effect.incCounter CounterName.secrets_set_access_denied]⟩
    | some q =>
      let token := str_replace q "token=" ""
      let vt := validate_token env st token
      match vt.1 with
      | Except.error _ =>
        ⟨⟨401, "Bad token"⟩, st,
         vt.2 ++
         [Effect.audit ServerEvents.SecretCreateFailureInvalidToken
            ("Secret " ++ name ++ " failed set, invalid token attempt"),
          Effect.incCounter CounterName.secrets_set_access_denied]⟩
      | Except.ok username =>
        let uuid := uuid_v5_dns name
        let s1 := set_etcd_key env st ("/secrets/" ++ uuid ++ "/name") name none
        match s1.1 with
        | Except.error _ =>
          ⟨⟨500, ""⟩, s1.2.1,
           vt.2 ++ s1.2.2 ++
           [Effect.audit ServerEvents.SecretCreateFailure
              ("Unable to set secret " ++ name ++ " by user " ++ username ++
               ", internal error")]⟩
        | Except.ok _ =>
          let s2 := set_etcd_key env s1.2.1 ("/secrets/" ++ uuid ++ "/value")
            value none
          match s2.1 with
          | Except.error _ =>
            ⟨⟨500, ""⟩, s2.2.1,
             vt.2 ++ s1.2.2 ++ s2.2.2 ++
             [Effect.audit ServerEvents.SecretCreateFailure
                ("Unable to set secret " ++ name ++ " by user " ++ username ++
                 ", internal error")]⟩
          | Except.ok _ =>
            ⟨⟨200, uuid⟩, s2.2.1,
             vt.2 ++ s1.2.2 ++ s2.2.2 ++
             [Effect.audit ServerEvents.SecretCreateSuccess
                ("Secret " ++ name ++ " set with UUID " ++ uuid ++
                 " by user " ++ username),
              Effect.incCounter CounterName.secrets_set]⟩

/-- The `fetch_secret` handler. -/
def fetch_secret (env : Env) (st : Store) (params : Option (Option String))
    (query : Option String) : RunResult :=
  match params with
  | none => ⟨⟨400, ""⟩, st, []⟩
  | some pname =>
    let name := pname.getD ""
    match query with
    | none =>
      ⟨⟨400, "Token required"⟩, st,
       [Effect.audit ServerEvents.SecretFetchFailureNoToken
          ("Secret " ++ name ++ " failed fetch, no token entered attempt"),
        Effect.incCounter CounterName.secrets_fetch_access_denied]⟩
    | some q =>
      let token := str_replace q "token=" ""
      let vt := validate_token env st token
      match vt.1 with
      | Except.error _ =>
        ⟨⟨401, "Bad token"⟩, st,
         vt.2 ++
         [Effect.audit ServerEvents.SecretFetchFailureInvalidToken
            ("Secret " ++ name ++ " failed fetch, invalid token attempt"),
          Effect.incCounter CounterName.secrets_fetch_access_denied]⟩
      | Except.ok username =>
        let uuid := uuid_v5_dns name
        let g := get_etcd_key env st ("/secrets/" ++ uuid ++ "/value")
        match g.1 with
        | Except.ok value =>
          ⟨⟨200, value⟩, st,
           vt.2 ++ g.2 ++
           [Effect.audit ServerEvents.SecretFetchSuccess
              ("Secret " ++ name ++ " UUID " ++ uuid ++ " fetched by user " ++
               username),
            Effect.incCounter CounterName.secrets_fetch]⟩
        | Except.error _ =>
          ⟨⟨400, "Invalid secret"⟩, st,
           vt.2 ++ g.2 ++
           [Effect.audit ServerEvents.SecretFetchFailureNoExist
              ("Secret " ++ name ++ " failed fetch by user " ++ username ++
               ", does not exist")]⟩

/-! ### Trace observations -/

/-- Number of audit emissions in a trace. -/
def auditCount (tr : List Effect) : Nat :=
  (tr.filter fun e =>
    match e with
    | Effect.audit _ _ => true
    | _ => false).length

/-- Number of counter increments in a trace. -/
def incCount (tr : List Effect) : Nat :=
  (tr.filter fun e =>
    match e with
    | Effect.incCounter _ => true
    | _ => false).length

/-- Whether a key lies in the secret key space `/secrets/...` (every
derived-identifier key the handlers form has this shape). -/
def isSecretKey (k : String) : Bool := startsWithList "/secrets/".toList k.toList

/-- Whether an effect reads or writes a key in the secret key space. -/
def touchesSecretStore (e : Effect) : Bool :=
  match e with
  | Effect.storeGet k => isSecretKey k
  | Effect.storeSet k _ _ => isSecretKey k
  | _ => false

/-- Whether an effect is a store write. -/
def isStoreWrite (e : Effect) : Bool :=
  match e with
  | Effect.storeSet _ _ _ => true
  | _ => false

/-! ### Concrete fixtures used by witnesses and counterexamples -/

/-- A fully reliable environment: no store call fails, the hashing primitive
accepts exactly the hash built as "argon:" followed by the password, and the
RNG emits 0, 1, 2, .... -/
def env0 : Env where
  getFails := fun _ => false
  setFails := fun _ => false
  argonVerify := fun h p =>
    if h = "argon:" ++ p then Except.ok true else Except.error ()
  rngIndex := fun i => i
  tokenExpirationSecs := 600

/-- A store holding one credential and one live session token. -/
def st0 : Store :=
  [("/users/alice/password", some "argon:correct"),
   ("/session_tokens/tok123", some "alice")]

/-- A store whose session-token node and secret-value node exist but carry no
value (as an etcd directory node does). -/
def st10 : Store :=
  [("/session_tokens/dirtok", none),
   ("/secrets/" ++ uuid_v5_dns "db-pass" ++ "/value", none)]

/-! ### Small facts about the embedding -/

/-- A session-token key is never a key of the secret key space. -/
theorem sessionKey_not_secret (t : String) :
    isSecretKey ("/session_tokens/" ++ t) = false := rfl

/-- The trace of a store read is the single read effect. -/
theorem get_etcd_key_trace (env : Env) (st : Store) (k : String) :
    (get_etcd_key env st k).2 = [Effect.storeGet k] := rfl

/-- The trace of a token validation is the single session-token read. -/
theorem validate_token_trace (env : Env) (st : Store) (t : String) :
    (validate_token env st t).2 = [Effect.storeGet ("/session_tokens/" ++ t)] :=
  rfl

/-- The trace of a credential fetch is the single password-key read. -/
theorem fetch_user_password_trace (env : Env) (st : Store) (ui : UserInfo) :
    (fetch_user_password env st ui).2 =
      [Effect.storeGet ("/users/" ++ ui.username ++ "/password")] := by
  unfold fetch_user_password get_etcd_key
  cases h : env.getFails ("/users/" ++ ui.username ++ "/password") <;> simp [h] <;>
    cases h2 : storeLookup st ("/users/" ++ ui.username ++ "/password") <;> simp [h2]

/-- A credential fetch only ever touches the `encoded_password` field. -/
theorem fetch_user_password_fields (env : Env) (st : Store) (ui : UserInfo) :
    (fetch_user_password env st ui).1.username = ui.username ∧
      (fetch_user_password env st ui).1.password = ui.password ∧
      (fetch_user_password env st ui).1.token = ui.token := by
  unfold fetch_user_password get_etcd_key
  cases h : env.getFails ("/users/" ++ ui.username ++ "/password") <;> simp [h] <;>
    cases h2 : storeLookup st ("/users/" ++ ui.username ++ "/password") <;> simp [h2]

/-- The trace of a password verification is the single verifier call on the
fetched hash. -/
theorem verify_password_trace (env : Env) (ui : UserInfo) :
    (verify_password env ui).2 =
      [Effect.verifyCall ui.encoded_password ui.password] := rfl

/-- C1: a get-secret or set-secret request whose token is missing (no query
string) or whose token fails validation receives a denial response (status
400 or 401), leaves the store unchanged, performs no store write at all, and
performs no store read or write in the secret key space that holds the
derived identifiers — regardless of the name requested or of the store
contents, i.e. of whether the secret exists. -/
theorem c1_denial_forestalls_secret_store_access
    (env : Env) (st : Store) (fparams : Option (Option String))
    (sparams : Option (Option String × Option String)) (query : Option String)
    (hdenied : query = none ∨
      ∃ q m, query = some q ∧
        (validate_token env st (str_replace q "token=" "")).1 = Except.error m) :
    ((fetch_secret env st fparams query).response.status = 400 ∨
        (fetch_secret env st fparams query).response.status = 401) ∧
      (fetch_secret env st fparams query).store = st ∧
      (∀ e ∈ (fetch_secret env st fparams query).trace,
        touchesSecretStore e = false ∧ isStoreWrite e = false) ∧
      ((set_secret env st sparams query).response.status = 400 ∨
        (set_secret env st sparams query).response.status = 401) ∧
      (set_secret env st sparams query).store = st ∧
      (∀ e ∈ (set_secret env st sparams query).trace,
        touchesSecretStore e = false ∧ isStoreWrite e = false) := by
  rcases hdenied with h | ⟨q, m, hq, hv⟩
  · subst h
    rcases fparams with _ | pn <;> rcases sparams with _ | ⟨pn2, pv2⟩ <;>
      simp [fetch_secret, set_secret, touchesSecretStore, isStoreWrite]
  · subst hq
    rcases fparams with _ | pn <;> rcases sparams with _ | ⟨pn2, pv2⟩ <;>
      simp [fetch_secret, set_secret, hv, validate_token_trace,
        touchesSecretStore, isStoreWrite, sessionKey_not_secret]

/-- Witness for C1 at a concrete denied request: an invalid token over the
fixture store. -/
theorem c1_witness :
    (∃ m, (validate_token env0 st0 (str_replace "token=badtok" "token=" "")).1 =
        Except.error m) ∧
      (fetch_secret env0 st0 (some (some "db-pass")) (some "token=badtok")
        ).response.status = 401 := by
  refine ⟨⟨"Token badtok not found", rfl⟩, ?_⟩
  have h := c1_denial_forestalls_secret_store_access env0 st0
    (some (some "db-pass")) (some (some "db-pass", some "v")) (some "token=badtok")
    (Or.inr ⟨"token=badtok", "Token badtok not found", rfl, rfl⟩)
  rcases h.1 with h4 | h4
  · exact absurd h4 (by decide)
  · exact h4

/-- The empty string is not a decodable argon hash under the fixture
verifier, so it never verifies. -/
theorem env0_empty_hash_fails (pw : String) :
    env0.argonVerify "" pw ≠ Except.ok true := by
  intro h
  unfold env0 at h
  simp only at h
  split at h
  · rename_i heq
    have hlen := congrArg String.length heq
    have h6 : "argon:".length = 6 := rfl
    simp [String.length_append] at hlen
    omega
  · exact absurd h (by simp)

/-- C2: when the credential lookup fails (a failing store call, an absent
key) or returns nothing (a node without a value), `login` still makes the
verification call and makes it with the empty string as the stored hash;
since an empty hash never verifies, the response is the generic 401 with an
empty body — exactly the response every wrong-password login receives, so an
unknown user is indistinguishable from a wrong password to the client. -/
theorem c2_missing_user_uses_empty_hash
    (env : Env) (st : Store) (u p : String)
    (hmiss : env.getFails ("/users/" ++ u ++ "/password") = true ∨
      storeLookup st ("/users/" ++ u ++ "/password") = none ∨
      storeLookup st ("/users/" ++ u ++ "/password") = some none)
    (hempty : ∀ pw, env.argonVerify "" pw ≠ Except.ok true) :
    Effect.verifyCall "" p ∈ (login env st (some (u, some p))).trace ∧
      (login env st (some (u, some p))).response = ⟨401, ""⟩ ∧
      ∀ (env2 : Env) (st2 : Store) (u2 p2 : String),
        (verify_password env2 (fetch_user_password env2 st2
          { username := u2, password := p2,
            encoded_password := "", token := "" }).1).1 = false →
        (login env2 st2 (some (u2, some p2))).response =
          (login env st (some (u, some p))).response := by
  have hui : (fetch_user_password env st
      { username := u, password := p, encoded_password := "", token := "" }).1 =
      { username := u, password := p, encoded_password := "", token := "" } := by
    unfold fetch_user_password get_etcd_key
    cases hg : env.getFails ("/users/" ++ u ++ "/password") <;>
      rcases hmiss with h | h | h <;> simp_all
  have hvp : verify_password env (fetch_user_password env st
      { username := u, password := p, encoded_password := "", token := "" }).1 =
      (false, [Effect.verifyCall "" p]) := by
    rw [hui]
    unfold verify_password
    rcases hres : env.argonVerify "" p with m | b
    · simp [hres]
    · cases b
      · simp [hres]
      · exact absurd hres (hempty p)
  refine ⟨?_, ?_, ?_⟩
  · simp [login, hvp, verify_password_trace]
  · simp [login, hvp]
  · intro env2 st2 u2 p2 h2
    simp [login, hvp, h2]

/-- Witness for C2: a login for an unknown user over the fixture store is
answered with the same 401 as a wrong-password login, after a verification
call on the empty hash. -/
theorem c2_witness :
    Effect.verifyCall "" "whatever" ∈
      (login env0 st0 (some ("ghost", some "whatever"))).trace ∧
      (login env0 st0 (some ("ghost", some "whatever"))).response = ⟨401, ""⟩ := by
  have h := c2_missing_user_uses_empty_hash env0 st0 "ghost" "whatever"
    (Or.inr (Or.inl rfl)) env0_empty_hash_fails
  exact ⟨h.1, h.2.1⟩

/-- C3: for every login whose fetched credential does not verify, the
response is the generic 401, the store is unchanged, and the trace contains
no store write: no session token is persisted. -/
theorem c3_failed_login_persists_nothing
    (env : Env) (st : Store) (u p : String)
    (hfail : (verify_password env (fetch_user_password env st
      { username := u, password := p,
        encoded_password := "", token := "" }).1).1 = false) :
    (login env st (some (u, some p))).response = ⟨401, ""⟩ ∧
      (login env st (some (u, some p))).store = st ∧
      ∀ e ∈ (login env st (some (u, some p))).trace, isStoreWrite e = false := by
  refine ⟨?_, ?_, ?_⟩
  · simp [login, hfail]
  · simp [login, hfail]
  · intro e he
    simp only [login, hfail] at he
    rw [fetch_user_password_trace, verify_password_trace] at he
    simp at he
    rcases he with h | h | h | h <;> subst h <;> rfl

/-- Witness for C3: a wrong-password login for a known user over the fixture
store returns 401 and leaves the store unchanged. -/
theorem c3_witness :
    (login env0 st0 (some ("alice", some "wrong"))).response = ⟨401, ""⟩ ∧
      (login env0 st0 (some ("alice", some "wrong"))).store = st0 := by
  have h := c3_failed_login_persists_nothing env0 st0 "alice" "wrong" rfl
  exact ⟨h.1, h.2.1⟩

/-- C4: a `set_secret` with a valid token followed by a `get_secret` for the
same name with a valid token returns exactly the value that was set: both
operations derive the identifier with the same function, so the get reads
back the very value entry the set wrote. -/
theorem c4_set_then_get_roundtrip
    (env : Env) (st : Store) (name value q1 q2 user1 user2 : String)
    (hv1 : (validate_token env st (str_replace q1 "token=" "")).1 =
      Except.ok user1)
    (hsn : env.setFails ("/secrets/" ++ uuid_v5_dns name ++ "/name") = false)
    (hsv : env.setFails ("/secrets/" ++ uuid_v5_dns name ++ "/value") = false)
    (hv2 : (validate_token env
        (set_secret env st (some (some name, some value)) (some q1)).store
        (str_replace q2 "token=" "")).1 = Except.ok user2)
    (hg : env.getFails ("/secrets/" ++ uuid_v5_dns name ++ "/value") = false) :
    (set_secret env st (some (some name, some value)) (some q1)).response =
      ⟨200, uuid_v5_dns name⟩ ∧
      (fetch_secret env
        (set_secret env st (some (some name, some value)) (some q1)).store
        (some (some name)) (some q2)).response = ⟨200, value⟩ := by
  have hst : (set_secret env st (some (some name, some value)) (some q1)).store =
      ("/secrets/" ++ uuid_v5_dns name ++ "/value", some value) ::
        ("/secrets/" ++ uuid_v5_dns name ++ "/name", some name) :: st := by
    simp [set_secret, hv1, set_etcd_key, hsn, hsv]
  rw [hst] at hv2
  constructor
  · simp [set_secret, hv1, set_etcd_key, hsn, hsv]
  · rw [hst]
    simp [fetch_secret, hv2, get_etcd_key, hg, storeLookup]

/-- Witness for C4: setting then getting the secret named db-pass with the
fixture token returns the value that was set. -/
theorem c4_witness :
    (fetch_secret env0
      (set_secret env0 st0 (some (some "db-pass", some "s3cr3t"))
        (some "token=tok123")).store
      (some (some "db-pass")) (some "token=tok123")).response =
      ⟨200, "s3cr3t"⟩ :=
  (c4_set_then_get_roundtrip env0 st0 "db-pass" "s3cr3t" "token=tok123"
    "token=tok123" "alice" "alice" rfl rfl rfl rfl rfl).2

/-- Every sampled character lies in the 62-symbol alphanumeric charset. -/
theorem sampleAlphanumeric_mem (env : Env) (i : Nat) :
    sampleAlphanumeric env i ∈ GEN_ASCII_CHARSET := by
  unfold sampleAlphanumeric
  have hlen : GEN_ASCII_CHARSET.length = 62 := rfl
  have hlt : env.rngIndex i % 62 < GEN_ASCII_CHARSET.length := by
    rw [hlen]; exact Nat.mod_lt _ (by norm_num)
  rw [List.getD_eq_getElem GEN_ASCII_CHARSET 'A' hlt]
  exact List.getElem_mem hlt

/-- C5: a successful login returns a token of exactly 24 characters, each
from the 62-symbol alphanumeric alphabet, and validating that token against
the store the login left behind resolves it to the username that logged
in. -/
theorem c5_login_token_shape_and_validation
    (env : Env) (st : Store) (u p : String)
    (hok : (verify_password env (fetch_user_password env st
      { username := u, password := p,
        encoded_password := "", token := "" }).1).1 = true)
    (hset : env.setFails
      ("/session_tokens/" ++ generate_authorization_token env) = false)
    (hget : env.getFails
      ("/session_tokens/" ++ generate_authorization_token env) = false) :
    (login env st (some (u, some p))).response.status = 200 ∧
      (login env st (some (u, some p))).response.body =
        generate_authorization_token env ∧
      (login env st (some (u, some p))).response.body.length = 24 ∧
      (∀ c ∈ (login env st (some (u, some p))).response.body.toList,
        c ∈ GEN_ASCII_CHARSET) ∧
      (validate_token env (login env st (some (u, some p))).store
        (login env st (some (u, some p))).response.body).1 = Except.ok u := by
  have hname := (fetch_user_password_fields env st
    { username := u, password := p, encoded_password := "", token := "" }).1
  have hresp : login env st (some (u, some p)) =
      ⟨⟨200, generate_authorization_token env⟩,
        ("/session_tokens/" ++ generate_authorization_token env, some u) :: st,
        (login env st (some (u, some p))).trace⟩ := by
    unfold login
    simp only [hok, if_true]
    simp [update_user_token, set_etcd_key, hname, hset, login, hok]
  rw [hresp]
  refine ⟨rfl, rfl, ?_, ?_, ?_⟩
  · simp [generate_authorization_token, String.length]
  · intro c hc
    simp [generate_authorization_token, String.toList] at hc
    obtain ⟨i, _, hi⟩ := hc
    rw [← hi]
    exact sampleAlphanumeric_mem env i
  · simp [validate_token, hget, storeLookup]

/-- Witness for C5: the concrete successful login of alice over the fixture
store yields a 24-character alphanumeric token that validates back to
alice. -/
theorem c5_witness :
    (login env0 st0 (some ("alice", some "correct"))).response.status = 200 ∧
      (login env0 st0 (some ("alice", some "correct"))).response.body.length = 24 ∧
      (validate_token env0 (login env0 st0 (some ("alice", some "correct"))).store
        (login env0 st0 (some ("alice", some "correct"))).response.body).1 =
        Except.ok "alice" := by
  have h := c5_login_token_shape_and_validation env0 st0 "alice" "correct"
    rfl rfl rfl
  exact ⟨h.1, h.2.2.1, h.2.2.2.2⟩

/-- C8: after a valid token, `set_secret` issues its two store writes in a
fixed order — the name entry, then the value entry — as independent
operations with no rollback: if the name write fails the handler returns a
store error (500) with the store untouched and no value write ever attempted;
if the name write succeeds and the value write fails it returns 500 with the
name entry written and the value entry absent (split record); if both succeed
the store gains both entries in that order. -/
theorem c8_two_writes_fixed_order_no_rollback
    (env : Env) (st : Store) (name value q user : String)
    (hv : (validate_token env st (str_replace q "token=" "")).1 =
      Except.ok user) :
    (env.setFails ("/secrets/" ++ uuid_v5_dns name ++ "/name") = true →
      (set_secret env st (some (some name, some value)) (some q)).response =
          ⟨500, ""⟩ ∧
        (set_secret env st (some (some name, some value)) (some q)).store = st ∧
        (set_secret env st (some (some name, some value)) (some q)).trace =
          [Effect.storeGet ("/session_tokens/" ++ str_replace q "token=" ""),
           Effect.storeSet ("/secrets/" ++ uuid_v5_dns name ++ "/name") name none,
           Effect.audit ServerEvents.SecretCreateFailure
             ("Unable to set secret " ++ name ++ " by user " ++ user ++
              ", internal error")]) ∧
      (env.setFails ("/secrets/" ++ uuid_v5_dns name ++ "/name") = false →
        env.setFails ("/secrets/" ++ uuid_v5_dns name ++ "/value") = true →
        (set_secret env st (some (some name, some value)) (some q)).response =
            ⟨500, ""⟩ ∧
          (set_secret env st (some (some name, some value)) (some q)).store =
            ("/secrets/" ++ uuid_v5_dns name ++ "/name", some name) :: st ∧
          (set_secret env st (some (some name, some value)) (some q)).trace =
            [Effect.storeGet ("/session_tokens/" ++ str_replace q "token=" ""),
             Effect.storeSet ("/secrets/" ++ uuid_v5_dns name ++ "/name")
               name none,
             Effect.storeSet ("/secrets/" ++ uuid_v5_dns name ++ "/value")
               value none,
             Effect.audit ServerEvents.SecretCreateFailure
               ("Unable to set secret " ++ name ++ " by user " ++ user ++
                ", internal error")]) ∧
      (env.setFails ("/secrets/" ++ uuid_v5_dns name ++ "/name") = false →
        env.setFails ("/secrets/" ++ uuid_v5_dns name ++ "/value") = false →
        (set_secret env st (some (some name, some value)) (some q)).response =
            ⟨200, uuid_v5_dns name⟩ ∧
          (set_secret env st (some (some name, some value)) (some q)).store =
            ("/secrets/" ++ uuid_v5_dns name ++ "/value", some value) ::
              ("/secrets/" ++ uuid_v5_dns name ++ "/name", some name) :: st ∧
          (set_secret env st (some (some name, some value)) (some q)).trace =
            [Effect.storeGet ("/session_tokens/" ++ str_replace q "token=" ""),
             Effect.storeSet ("/secrets/" ++ uuid_v5_dns name ++ "/name")
               name none,
             Effect.storeSet ("/secrets/" ++ uuid_v5_dns name ++ "/value")
               value none,
             Effect.audit ServerEvents.SecretCreateSuccess
               ("Secret " ++ name ++ " set with UUID " ++ uuid_v5_dns name ++
                " by user " ++ user),
             Effect.incCounter CounterName.secrets_set]) := by
  refine ⟨?_, ?_, ?_⟩
  · intro h1
    simp [set_secret, hv, set_etcd_key, h1, validate_token_trace]
  · intro h1 h2
    simp [set_secret, hv, set_etcd_key, h1, h2, validate_token_trace]
  · intro h1 h2
    simp [set_secret, hv, set_etcd_key, h1, h2, validate_token_trace]

/-- Witness for C8: the all-reliable fixture run takes the both-writes-succeed
branch and leaves both entries, value written after name. -/
theorem c8_witness :
    (set_secret env0 st0 (some (some "db-pass", some "s3cr3t"))
        (some "token=tok123")).store =
      ("/secrets/" ++ uuid_v5_dns "db-pass" ++ "/value", some "s3cr3t") ::
        ("/secrets/" ++ uuid_v5_dns "db-pass" ++ "/name", some "db-pass") ::
        st0 :=
  ((c8_two_writes_fixed_order_no_rollback env0 st0 "db-pass" "s3cr3t"
    "token=tok123" "alice" rfl).2.2 rfl rfl).2.1

/-- C9: the secret identifier is derived by the one pure function
`uuid_v5_dns` (a function of the name alone, with no access to the
environment or the store): deriving twice yields the same identifier, and a
get-secret and a set-secret for the same name — under arbitrary and even
different environments and stores — address their reads and writes to the
same `/secrets/identifier/...` keys. -/
theorem c9_derivation_deterministic_and_shared
    (env1 env2 : Env) (st1 st2 : Store) (name value q1 q2 u1 u2 : String)
    (h1 : (validate_token env1 st1 (str_replace q1 "token=" "")).1 =
      Except.ok u1)
    (h2 : (validate_token env2 st2 (str_replace q2 "token=" "")).1 =
      Except.ok u2) :
    (∀ m : String, m = name → uuid_v5_dns m = uuid_v5_dns name) ∧
      Effect.storeGet ("/secrets/" ++ uuid_v5_dns name ++ "/value") ∈
        (fetch_secret env1 st1 (some (some name)) (some q1)).trace ∧
      Effect.storeSet ("/secrets/" ++ uuid_v5_dns name ++ "/name") name none ∈
        (set_secret env2 st2 (some (some name, some value)) (some q2)).trace := by
  refine ⟨fun m hm => by rw [hm], ?_, ?_⟩
  · unfold fetch_secret
    simp only [h1]
    split <;> simp [get_etcd_key_trace]
  · unfold set_secret
    simp only [h2]
    cases hn : env2.setFails ("/secrets/" ++ uuid_v5_dns name ++ "/name") <;>
      [skip; simp [set_etcd_key, hn]] <;>
      cases hw : env2.setFails ("/secrets/" ++ uuid_v5_dns name ++ "/value") <;>
      simp [set_etcd_key, hn, hw]

/-- Witness for C9: the concrete fixture set and get of db-pass address the
identically derived value key. -/
theorem c9_witness :
    Effect.storeGet ("/secrets/" ++ uuid_v5_dns "db-pass" ++ "/value") ∈
      (fetch_secret env0 st0 (some (some "db-pass"))
        (some "token=tok123")).trace :=
  (c9_derivation_deterministic_and_shared env0 env0 st0 st0 "db-pass" "s3cr3t"
    "token=tok123" "token=tok123" "alice" "alice" rfl rfl).2.1

/-- C10: when a store read succeeds but the node carries no value, the
absence becomes the empty string rather than a failure: `validate_token`
returns success with the empty string as the owning username (the request is
authorized and attributed to an empty user), `get_etcd_key` returns the empty
string so the fetch answers 200 with an empty body instead of the not-found
error, and the error branches of both readers are reached exactly when the
store call fails or the key is absent. -/
theorem c10_absent_node_value_maps_to_empty
    (env : Env) (st : Store) (name q : String)
    (hga : env.getFails ("/session_tokens/" ++ str_replace q "token=" "") =
      false)
    (hla : storeLookup st ("/session_tokens/" ++ str_replace q "token=" "") =
      some none)
    (hgv : env.getFails ("/secrets/" ++ uuid_v5_dns name ++ "/value") = false)
    (hlv : storeLookup st ("/secrets/" ++ uuid_v5_dns name ++ "/value") =
      some none) :
    (validate_token env st (str_replace q "token=" "")).1 = Except.ok "" ∧
      (get_etcd_key env st ("/secrets/" ++ uuid_v5_dns name ++ "/value")).1 =
        Except.ok "" ∧
      (fetch_secret env st (some (some name)) (some q)).response = ⟨200, ""⟩ ∧
      (∀ k, (∃ m, (get_etcd_key env st k).1 = Except.error m) ↔
        (env.getFails k = true ∨ storeLookup st k = none)) ∧
      (∀ t, (∃ m, (validate_token env st t).1 = Except.error m) ↔
        (env.getFails ("/session_tokens/" ++ t) = true ∨
          storeLookup st ("/session_tokens/" ++ t) = none)) := by
  have hv : (validate_token env st (str_replace q "token=" "")).1 =
      Except.ok "" := by
    simp [validate_token, hga, hla]
  have hgk : (get_etcd_key env st
      ("/secrets/" ++ uuid_v5_dns name ++ "/value")).1 = Except.ok "" := by
    simp [get_etcd_key, hgv, hlv]
  refine ⟨hv, hgk, ?_, ?_, ?_⟩
  · unfold fetch_secret
    simp only [hv, Option.getD]
    simp [hgk]
  · intro k
    cases hg : env.getFails k
    · cases hl : storeLookup st k <;> simp [get_etcd_key, hg, hl]
    · simp [get_etcd_key, hg]
  · intro t
    cases hg : env.getFails ("/session_tokens/" ++ t)
    · cases hl : storeLookup st ("/session_tokens/" ++ t) <;>
        simp [validate_token, hg, hl]
    · simp [validate_token, hg]

/-- Witness for C10: over a store of value-less nodes, the fetch of db-pass
with the directory-token is authorized and answered 200 with an empty
body. -/
theorem c10_witness :
    (validate_token env0 st10 (str_replace "token=dirtok" "token=" "")).1 =
        Except.ok "" ∧
      (fetch_secret env0 st10 (some (some "db-pass"))
        (some "token=dirtok")).response = ⟨200, ""⟩ := by
  have h := c10_absent_node_value_maps_to_empty env0 st10 "db-pass"
    "token=dirtok" rfl rfl rfl rfl
  exact ⟨h.1, h.2.2.1⟩

/-- C7 counterexample: a get-secret request whose query string carries no
`token` parameter at all (query "x=1") is NOT answered 400 "Token required";
the handler proceeds to validate the whole query string as the token, reading
`/session_tokens/x=1`, and answers 401. -/
theorem c7_counterexample :
    (fetch_secret env0 [] (some (some "db-pass")) (some "x=1")).response =
        ⟨401, "Bad token"⟩ ∧
      (fetch_secret env0 [] (some (some "db-pass")) (some "x=1")).response ≠
        ⟨400, "Token required"⟩ ∧
      Effect.storeGet "/session_tokens/x=1" ∈
        (fetch_secret env0 [] (some (some "db-pass")) (some "x=1")).trace := by
  refine ⟨rfl, by decide, by decide⟩

/-- C7 amended: for get-secret and set-secret with parsed route parameters,
the 400 "Token required" response is returned exactly when the request has no
query string at all; whenever a query string q is present, the string
submitted to token validation is q with every occurrence of "token=" removed
(not the value of a parsed `token` parameter). -/
theorem c7_amended_token_is_stripped_query
    (env : Env) (st : Store) (pn : Option String)
    (pv : Option String × Option String) (query : Option String) :
    ((fetch_secret env st (some pn) query).response = ⟨400, "Token required"⟩ ↔
      query = none) ∧
      (∀ q, query = some q →
        Effect.storeGet ("/session_tokens/" ++ str_replace q "token=" "") ∈
          (fetch_secret env st (some pn) query).trace) ∧
      ((set_secret env st (some pv) query).response = ⟨400, "Token required"⟩ ↔
        query = none) ∧
      (∀ q, query = some q →
        Effect.storeGet ("/session_tokens/" ++ str_replace q "token=" "") ∈
          (set_secret env st (some pv) query).trace) := by
  rcases pv with ⟨pn2, pv2⟩
  rcases query with _ | q
  · simp [fetch_secret, set_secret]
  · refine ⟨?_, ?_, ?_, ?_⟩
    · simp only [fetch_secret]
      split <;> (try split) <;> simp
    · intro q2 hq2
      obtain rfl : q2 = q := by injection hq2.symm
      simp only [fetch_secret]
      split <;> (try split) <;> simp [validate_token_trace]
    · simp only [set_secret]
      split <;> (try split) <;> (try split) <;> simp
    · intro q2 hq2
      obtain rfl : q2 = q := by injection hq2.symm
      simp only [set_secret]
      split <;> (try split) <;> (try split) <;> simp [validate_token_trace]

/-- Witness for C7 amended: the concrete token-less query "x=1" is stripped
to itself and submitted to validation. -/
theorem c7_amended_witness :
    Effect.storeGet ("/session_tokens/" ++ str_replace "x=1" "token=" "") ∈
      (fetch_secret env0 [] (some (some "db-pass")) (some "x=1")).trace :=
  (c7_amended_token_is_stripped_query env0 [] (some "db-pass")
    (some "db-pass", some "v") (some "x=1")).2.1 "x=1" rfl

/-- Audit emissions split over trace concatenation. -/
theorem auditCount_append (a b : List Effect) :
    auditCount (a ++ b) = auditCount a + auditCount b := by
  simp [auditCount, List.filter_append]

/-- Counter increments split over trace concatenation. -/
theorem incCount_append (a b : List Effect) :
    incCount (a ++ b) = incCount a + incCount b := by
  simp [incCount, List.filter_append]

/-- The trace of a store write is the single write effect. -/
theorem set_etcd_key_trace (env : Env) (st : Store) (k v : String)
    (e : Option Nat) : (set_etcd_key env st k v e).2.2 =
      [Effect.storeSet k v e] := by
  cases h : env.setFails k <;> simp [set_etcd_key, h]

/-- C6 counterexample: a successful login emits two audit events (not one),
and a fetch of a nonexistent secret with a valid token emits one audit but no
counter increment — refuting "exactly one audit emission and exactly one
counter increment" for every terminal outcome. -/
theorem c6_counterexample :
    (login env0 st0 (some ("alice", some "correct"))).response.status = 200 ∧
      auditCount (login env0 st0 (some ("alice", some "correct"))).trace = 2 ∧
      incCount (login env0 st0 (some ("alice", some "correct"))).trace = 1 ∧
      (fetch_secret env0 st0 (some (some "ghost"))
        (some "token=tok123")).response = ⟨400, "Invalid secret"⟩ ∧
      auditCount (fetch_secret env0 st0 (some (some "ghost"))
        (some "token=tok123")).trace = 1 ∧
      incCount (fetch_secret env0 st0 (some (some "ghost"))
        (some "token=tok123")).trace = 0 := by
  decide

/-- C6 amended: the audit/counter discipline the code actually implements.
Login and the secret handlers emit at most two audits and at most one
increment per terminal outcome; specifically: request-parsing failures
(missing auth header or password, missing router parameters) emit no audit
and no increment; the wrong-password 401, the missing-token 400, the
invalid-token 401 and the secret-handler successes emit exactly one audit and
one increment; the token-creation 500, the store-write 500 and the not-found
400 outcomes emit exactly one audit and no increment; and the login success
emits two audits (token-created and login-success) with one increment. -/
theorem c6_amended_audit_counter_table :
    (∀ (env : Env) (st : Store) (auth : Option (String × Option String)),
      ((auth = none ∨ ∃ u, auth = some (u, none)) →
        auditCount (login env st auth).trace = 0 ∧
          incCount (login env st auth).trace = 0) ∧
      (∀ u p, auth = some (u, some p) →
        ((login env st auth).response.status = 401 →
          auditCount (login env st auth).trace = 1 ∧
            incCount (login env st auth).trace = 1) ∧
        ((login env st auth).response.status = 500 →
          auditCount (login env st auth).trace = 1 ∧
            incCount (login env st auth).trace = 0) ∧
        ((login env st auth).response.status = 200 →
          auditCount (login env st auth).trace = 2 ∧
            incCount (login env st auth).trace = 1))) ∧
    (∀ (env : Env) (st : Store)
        (params : Option (Option String × Option String))
        (query : Option String),
      ((set_secret env st params query).response = ⟨400, ""⟩ →
        auditCount (set_secret env st params query).trace = 0 ∧
          incCount (set_secret env st params query).trace = 0) ∧
      ((set_secret env st params query).response = ⟨400, "Token required"⟩ →
        auditCount (set_secret env st params query).trace = 1 ∧
          incCount (set_secret env st params query).trace = 1) ∧
      ((set_secret env st params query).response = ⟨401, "Bad token"⟩ →
        auditCount (set_secret env st params query).trace = 1 ∧
          incCount (set_secret env st params query).trace = 1) ∧
      ((set_secret env st params query).response.status = 500 →
        auditCount (set_secret env st params query).trace = 1 ∧
          incCount (set_secret env st params query).trace = 0) ∧
      ((set_secret env st params query).response.status = 200 →
        auditCount (set_secret env st params query).trace = 1 ∧
          incCount (set_secret env st params query).trace = 1)) ∧
    (∀ (env : Env) (st : Store) (params : Option (Option String))
        (query : Option String),
      ((fetch_secret env st params query).response = ⟨400, ""⟩ →
        auditCount (fetch_secret env st params query).trace = 0 ∧
          incCount (fetch_secret env st params query).trace = 0) ∧
      ((fetch_secret env st params query).response = ⟨400, "Token required"⟩ →
        auditCount (fetch_secret env st params query).trace = 1 ∧
          incCount (fetch_secret env st params query).trace = 1) ∧
      ((fetch_secret env st params query).response = ⟨401, "Bad token"⟩ →
        auditCount (fetch_secret env st params query).trace = 1 ∧
          incCount (fetch_secret env st params query).trace = 1) ∧
      ((fetch_secret env st params query).response = ⟨400, "Invalid secret"⟩ →
        auditCount (fetch_secret env st params query).trace = 1 ∧
          incCount (fetch_secret env st params query).trace = 0) ∧
      ((fetch_secret env st params query).response.status = 200 →
        auditCount (fetch_secret env st params query).trace = 1 ∧
          incCount (fetch_secret env st params query).trace = 1)) := by
  refine ⟨?_, ?_, ?_⟩
  · intro env st auth
    constructor
    · rintro (rfl | ⟨u, rfl⟩) <;> simp [login, auditCount, incCount]
    · rintro u p rfl
      unfold login
      cases hv : (verify_password env (fetch_user_password env st
          { username := u, password := p,
            encoded_password := "", token := "" }).1).1
      · simp [hv, auditCount_append, incCount_append, fetch_user_password_trace,
          verify_password_trace, auditCount, incCount]
      · simp only [hv, if_true]
        split <;>
          simp [auditCount_append, incCount_append, fetch_user_password_trace,
            verify_password_trace, update_user_token, set_etcd_key_trace,
            auditCount, incCount]
  · intro env st params query
    rcases params with _ | ⟨pn, pv⟩
    · simp [set_secret, auditCount, incCount]
    · rcases query with _ | q
      · simp [set_secret, auditCount, incCount]
      · simp only [set_secret]
        split
        · simp [validate_token_trace, auditCount_append, incCount_append,
            auditCount, incCount]
        · split <;>
            [skip;
             split] <;>
            simp [validate_token_trace, set_etcd_key_trace, auditCount_append,
              incCount_append, auditCount, incCount]
  · intro env st params query
    rcases params with _ | pn
    · simp [fetch_secret, auditCount, incCount]
    · rcases query with _ | q
      · simp [fetch_secret, auditCount, incCount]
      · simp only [fetch_secret]
        split
        · simp [validate_token_trace, auditCount_append, incCount_append,
            auditCount, incCount]
        · split <;>
            simp [validate_token_trace, get_etcd_key_trace, auditCount_append,
              incCount_append, auditCount, incCount]

/-- Witness for C6 amended: the concrete wrong-password login emits exactly
one audit and one increment. -/
theorem c6_amended_witness :
    auditCount (login env0 st0 (some ("alice", some "wrong"))).trace = 1 ∧
      incCount (login env0 st0 (some ("alice", some "wrong"))).trace = 1 :=
  (((c6_amended_audit_counter_table.1 env0 st0
    (some ("alice", some "wrong"))).2 "alice" "wrong" rfl).1 rfl)

end SimpleSecrets
